import Mathlib

/-!
Verification of the `timely` calendar subsystem of pycfs (src/cfs/timely.py).

The development is a shallow embedding of the scalar (single time vector)
behaviour of the vectorized numpy code.  All slot values are integers: every
claim under study concerns integer-valued time vectors, and the floating
point decimal paths of the source are outside the embedding (noted at each
definition where the source has such a path).  Stateful numpy code (in-place
updates of `self.times`) is embedded as explicit state passing; the unbounded
`while` loops of the source take an explicit fuel argument and return `none`
when the fuel runs out, so a diverging loop is the statement
`for every fuel the result is none`.
-/

namespace Timely

/-- Time vector: the six slots [year, cycle, day, hour, minute, second] of
the source's `times[0, :]` row (timely.py module doc, lines 19-27). -/
structure TV where
  y : Int
  c : Int
  d : Int
  h : Int
  mi : Int
  s : Int
deriving DecidableEq, Repr

/-- Mask of a time vector row: `True` means the slot is unset
(numpy masked-array mask of `times[0, :]`). -/
structure Mask where
  y : Bool
  c : Bool
  d : Bool
  h : Bool
  mi : Bool
  s : Bool
deriving DecidableEq, Repr

/-- Mask with every slot set (all-unmasked row). -/
def Mask.allFalse : Mask := ⟨false, false, false, false, false, false⟩

/-- Error kinds: the source raises `TimelyError` with a message string; each
constructor names one of those raise sites. -/
inductive TErr where
  | badShape
  | maskGap
  | negativeValue
  | badMonth
  | invalidCycle
  | invalidDay
  | invalidHour
  | invalidMinute
  | invalidSecond
  | calendarMismatch
  | datesOrder
deriving DecidableEq, Repr

/-- Aliases of the built-in calendars (timely.py lines 755-774); the source
identifies calendars by their alias string (`Calendar.__eq__`, lines 564-568). -/
inductive CalAlias where
  | gregorian
  | d360
  | noleap
  | allLeap
  | julian
  | proleptic
  | yearsOnly
  | monthsOnly
  | seasons
  | d365NoMonths
deriving DecidableEq, Repr

/-- Calendar definition (class `Calendar`, lines 498-543): only the pieces the
claims exercise are kept.  `cyclesInYear y` is `len(year_cycles(y))` and
`daysInCycle c y` is the `days_in_cycle` function, `none` standing for the
`TimelyError` raised by the day-table functions on an out-of-range month. -/
structure Calendar where
  calAlias : CalAlias
  cyclesInYear : Int → Int
  daysInCycle : Int → Int → Option (List Int)

/-- Ordered day values 1..n, the Lean form of `range(1, n+1)` used by the
day-table functions. -/
def dayList (n : Nat) : List Int := (List.range' 1 n).map Int.ofNat

/-- Days of the month, 360-day calendar (`days_in_month_360`, lines 186-209):
`range(1, 31)` for every month and year, with no validation at all. -/
def days_in_month_360 (_month _year : Int) : Option (List Int) :=
  some (dayList 30)

/-- Month length table of `days_in_month_365` (line 245). -/
def table365 : List Nat := [31, 28, 31, 30, 31, 30, 31, 31, 30, 31, 30, 31]

/-- Month length table of `days_in_month_366` (line 282). -/
def table366 : List Nat := [31, 29, 31, 30, 31, 30, 31, 31, 30, 31, 30, 31]

/-- Days of the month, 365-day calendar (`days_in_month_365`, lines 213-246);
`none` is the `TimelyError` raised when the month is outside 1..12. -/
def days_in_month_365 (month _year : Int) : Option (List Int) :=
  if month < 1 ∨ 12 < month then none
  else some (dayList (table365.getD (month.toNat - 1) 0))

/-- Days of the month, 366-day calendar (`days_in_month_366`, lines 250-283). -/
def days_in_month_366 (month _year : Int) : Option (List Int) :=
  if month < 1 ∨ 12 < month then none
  else some (dayList (table366.getD (month.toNat - 1) 0))

/-- Days of the month, Julian calendar (`days_in_month_julian`,
lines 287-319): leap year every 4 years. -/
def days_in_month_julian (month year : Int) : Option (List Int) :=
  if year % 4 = 0 then days_in_month_366 month year
  else days_in_month_365 month year

/-- Days of the month, proleptic Gregorian calendar
(`days_in_month_proleptic_gregorian`, lines 323-357). -/
def days_in_month_proleptic_gregorian (month year : Int) : Option (List Int) :=
  if year % 100 = 0 ∧ ¬ year % 400 = 0 then days_in_month_365 month year
  else days_in_month_julian month year

/-- Day values of October 1582 in the Gregorian calendar (line 403):
October 5 to October 14 of 1582 do not exist. -/
def october1582 : List Int :=
  [1, 2, 3, 4, 15, 16, 17, 18, 19, 20, 21, 22, 23, 24, 25, 26, 27, 28, 29, 30, 31]

/-- Days of the month, Gregorian calendar (`days_in_month_gregorian`,
lines 361-405): proleptic Gregorian after October 1582, the special October
1582 table at the transition, Julian before. -/
def days_in_month_gregorian (month year : Int) : Option (List Int) :=
  if 1582 < year ∨ (year = 1582 ∧ 10 < month) then
    days_in_month_proleptic_gregorian month year
  else if year = 1582 ∧ month = 10 then some october1582
  else days_in_month_julian month year

/-- Built-in Gregorian calendar `CalGregorian` (lines 766-767): 12 months
(`months_of_gregorian_calendar`, lines 106-129) and the transition day
tables. -/
def CalGregorian : Calendar :=
  ⟨CalAlias.gregorian, fun _ => 12, days_in_month_gregorian⟩

/-- Built-in 360-day calendar `Cal360` (lines 755-756). -/
def Cal360 : Calendar :=
  ⟨CalAlias.d360, fun _ => 12, days_in_month_360⟩

/-- Integer range `[a, a+1, ..., b]`, the Lean form of `range(a, b+1)`
loop bounds used by the source. -/
def intRange (a b : Int) : List Int :=
  (List.range (b + 1 - a).toNat).map (fun k => a + (k : Int))

/-- Sum of `len(days_in_cycle(c, y))` over a list of cycles, propagating the
day-table error. -/
def sumLens (cal : Calendar) (y : Int) : List Int → Option Int
  | [] => some 0
  | c :: rest => do
      let l ← cal.daysInCycle c y
      let srest ← sumLens cal y rest
      pure ((l.length : Int) + srest)

/-- Number of days in a year (`Calendar.count_days_in_year`, lines 632-652):
sums the day-table length over cycles `1..count_cycles_in_year`.  The
`float('inf')` branch of the source never triggers for the built-in
calendars embedded here (their day tables are finite lists). -/
def countDaysInYear (cal : Calendar) (y : Int) : Option Int :=
  sumLens cal y (intRange 1 (cal.cyclesInYear y))

/-- Leap year check through the February day table (`is_leap_feb29`,
lines 464-492, as invoked by `Calendar.is_leap`, lines 576-597, which passes
the calendar's own `days_in_cycle`): a year is leap when the last day value
of cycle 2 is 29. -/
def isLeapCal (cal : Calendar) (y : Int) : Option Bool :=
  (cal.daysInCycle 2 y).map (fun l => decide (l.getLast? = some (29 : Int)))

/-- Standard Gregorian leap rule as worded by the specification: divisible
by 4, not by 100 unless also by 400.  This is the specification-side
definition used for the refinement comparison in claim C3; every other
definition is translated from the source. -/
def stdGregorianLeap (y : Int) : Prop :=
  y % 4 = 0 ∧ (¬ y % 100 = 0 ∨ y % 400 = 0)

instance (y : Int) : Decidable (stdGregorianLeap y) := by
  unfold stdGregorianLeap; infer_instance

/-- Data of slot `i` of a constructor input list: missing and `None` entries
become 0 (`_conversion_to_ma`, lines 860-869). -/
def slotD (inp : List (Option Int)) (i : Nat) : Int :=
  (inp.getD i none).getD 0

/-- Mask of slot `i` of a constructor input list: `None` and missing trailing
entries are masked (`_conversion_to_ma`, lines 860-869). -/
def slotM (inp : List (Option Int)) (i : Nat) : Bool :=
  (inp.getD i none).isNone

/-- Scalar `MultiDate.__init__` (lines 2271-2340), which `Date.__init__`
(lines 2994-2996) calls directly: convert the input to a masked six-slot row,
reject a gap of set-after-unset slots, reject negative values in slots 2..6,
fill an unset cycle with 1 and an unset day with the first day-table value,
validate cycle, day, hour, minute and second, and fill unset hour, minute
and second slots with 0.  Every fill assigns into the masked position and so
clears its mask bit; `del self.resolution` (line 2275) removes the recorded
input resolution.  The decimal checks of lines 2288-2303 are identities on
the integer inputs embedded here. -/
def mkDateSlots (cal : Calendar) (inp : List (Option Int)) :
    Except TErr TV :=
  -- _CollectionTime.__init__ (lines 886-905): the row must have six slots
  if 6 < inp.length then .error .badShape else
  let dy := slotD inp 0
  let my := slotM inp 0
  let dc := slotD inp 1
  let mc := slotM inp 1
  let dd := slotD inp 2
  let md := slotM inp 2
  let dh := slotD inp 3
  let mh := slotM inp 3
  let dmi := slotD inp 4
  let mmi := slotM inp 4
  let ds := slotD inp 5
  let ms := slotM inp 5
  -- unmasked element following a masked element (lines 2293-2300)
  if (my && !mc) || (mc && !md) || (md && !mh) || (mh && !mmi) || (mmi && !ms)
    then .error .maskGap else
  -- negative values in slots 2..6 (lines 2304-2306)
  if dc < 0 ∨ dd < 0 ∨ dh < 0 ∨ dmi < 0 ∨ ds < 0 then .error .negativeValue else
  -- fill masked cycle with 1 (lines 2308-2310)
  let c1 := if mc then 1 else dc
  let ciy := cal.cyclesInYear dy
  -- days_in_cycle of the (possibly filled) cycle (line 2312); a day-table
  -- failure is the TimelyError raised inside the vectorized call
  match cal.daysInCycle c1 dy with
  | none => .error .badMonth
  | some dlist =>
    -- fill masked day with the first day of the cycle (lines 2313-2316)
    let d1 := if md then dlist.headD 0 else dd
    -- cycle range check (lines 2317-2321)
    if c1 < 1 ∨ ciy < c1 then .error .invalidCycle else
    -- day membership check via list index (lines 2322-2325)
    if ¬ d1 ∈ dlist then .error .invalidDay else
    -- hour, minute, second fills and range checks (lines 2326-2340)
    let h1 := if mh then 0 else dh
    if 24 ≤ h1 then .error .invalidHour else
    let mi1 := if mmi then 0 else dmi
    if 60 ≤ mi1 then .error .invalidMinute else
    let s1 := if ms then 0 else ds
    if 60 ≤ s1 then .error .invalidSecond else
    .ok ⟨dy, c1, d1, h1, mi1, s1⟩

/-- Result of the scalar `MultiDate`/`Date` construction: the filled slots
of `mkDateSlots` together with the final mask.  Each fill of
`MultiDate.__init__` assigns into a masked position of the numpy masked
array and thereby clears that mask bit, so the net mask of every accepted
construction keeps only the year bit of the input (slots 2..6 are either
validated set slots or freshly filled ones); the year slot is never filled,
so its input mask bit survives. -/
def mkMultiDate (cal : Calendar) (inp : List (Option Int)) :
    Except TErr (TV × Mask) :=
  match mkDateSlots cal inp with
  | .error e => .error e
  | .ok tv => .ok (tv, ⟨slotM inp 0, false, false, false, false, false⟩)

/-- Slot data of a `Date(list, cal)` construction, dropping the mask
(every claim that uses it also records the mask facts separately). -/
def dateOf (cal : Calendar) (l : List Int) : Option TV :=
  ((mkMultiDate cal (l.map some)).toOption).map Prod.fst

/-- Scalar `MultiDeltaT.__init__` (lines 1520-1535), used by `DeltaT`
(lines 1566-1669): masked slots are set to 0 and the resolution is deleted;
no validation is performed on a time interval. -/
def mkDeltaT (l : List (Option Int)) : TV :=
  ⟨slotD l 0, slotD l 1, slotD l 2, slotD l 3, slotD l 4, slotD l 5⟩

/-- Shortcut `one_second = DeltaT([0,0,0,0,0,1])` (line 1675). -/
def one_second : TV := mkDeltaT [some 0, some 0, some 0, some 0, some 0, some 1]

/-- Shortcut `one_hour = DeltaT([0,0,0,1])` (line 1677). -/
def one_hour : TV := mkDeltaT [some 0, some 0, some 0, some 1]

/-- Shortcut `one_day = DeltaT([0,0,1])` (line 1678). -/
def one_day : TV := mkDeltaT [some 0, some 0, some 1]

/-- Shortcut `one_year = DeltaT([1])` (line 1680). -/
def one_year : TV := mkDeltaT [some 1]

/-- Zero-length interval `DeltaT([0])` as used by claim C6. -/
def zero_deltat : TV := mkDeltaT [some 0]

/-- Number of days in a cycle (`Calendar.count_days_in_cycle`,
lines 615-630). -/
def countDaysInCycle (cal : Calendar) (c y : Int) : Option Int :=
  (cal.daysInCycle c y).map (fun l => (l.length : Int))

/-- First day value of a cycle (`Calendar._ith_day_in_cycle` with i = 1,
lines 654-671). -/
def firstDayInCycle (cal : Calendar) (c y : Int) : Option Int :=
  (cal.daysInCycle c y).bind (fun l => l.head?)

/-- Python list indexing `lst[i]` with its negative-index wrap-around;
`none` is an IndexError. -/
def pyIndex (l : List Int) (i : Int) : Option Int :=
  if 0 ≤ i then l.get? i.toNat
  else if 0 ≤ (l.length : Int) + i then l.get? ((l.length : Int) + i).toNat
  else none

/-- Day number within the cycle (`MultiDate.day_number_in_cycle`,
lines 2543-2548): 1-based index of the day value in the cycle's day table;
`none` is the ValueError the source's `_Vindex` raises when the stored day
value is absent from the table. -/
def dayNumberInCycle (cal : Calendar) (t : TV) : Option Int :=
  (cal.daysInCycle t.c t.y).bind
    (fun l => (l.findIdx? (fun x => x == t.d)).map (fun i => (i : Int) + 1))

/-- Day number within the year (`MultiDate.day_number_in_year`,
lines 2550-2565, scalar form): day numbers of the full cycles before the
current one plus the day number in the current cycle. -/
def dayNumberInYear (cal : Calendar) (t : TV) : Option Int := do
  let prev ← sumLens cal t.y (intRange 1 (t.c - 1))
  let q ← dayNumberInCycle cal t
  pure (prev + q)

/-- Year-crossing loop of `MultiDate.add_days` (lines 2708-2724, scalar
form).  `fu0` is the pre-loop `flag_under` flag, which the source never
updates inside this loop.  The loop body is the identity when neither flag
is raised, so the do-while of the source is embedded as a guarded
recursion.  Note line 2722: on the backward path the day count of the
newly entered year is subtracted from (not added to) the remaining
increment, exactly as the source does. -/
def addDaysYearLoop (cal : Calendar) (fu0 : Bool) :
    Nat → TV → Int → Int → Option (TV × Int)
  | 0, _, _, _ => none
  | fuel + 1, t, n, diy =>
    let fo := diy ≤ n
    let fneg := n < 0
    if ¬ (fo ∨ (fu0 ∧ fneg)) then some (t, n)
    else do
      let y1 := t.y + (if fo then 1 else 0) - (if fu0 ∧ fneg then 1 else 0)
      let fd ← firstDayInCycle cal 1 y1
      let d1 := if fo ∨ (fneg ∧ fu0) then fd else t.d
      let diy1 ← countDaysInYear cal y1
      let n1 := n - (if fo then diy else 0) - (if fneg ∧ fu0 then diy1 else 0)
      addDaysYearLoop cal fu0 fuel ⟨y1, t.c, d1, t.h, t.mi, t.s⟩ n1 diy1

/-- Cycle-crossing loop of `MultiDate.add_days` (lines 2747-2763, scalar
form); here line 2761 adds the newly entered cycle's day count on the
backward path. -/
def addDaysCycleLoop (cal : Calendar) (fu0 : Bool) :
    Nat → TV → Int → Int → Option (TV × Int)
  | 0, _, _, _ => none
  | fuel + 1, t, n, dic =>
    let fo := dic ≤ n
    let fneg := n < 0
    if ¬ (fo ∨ (fu0 ∧ fneg)) then some (t, n)
    else do
      let c1 := t.c + (if fo then 1 else 0) - (if fu0 ∧ fneg then 1 else 0)
      let fd ← firstDayInCycle cal c1 t.y
      let d1 := if fo ∨ (fneg ∧ fu0) then fd else t.d
      let dic1 ← countDaysInCycle cal c1 t.y
      let n1 := n - (if fo then dic else 0) + (if fneg ∧ fu0 then dic1 else 0)
      addDaysCycleLoop cal fu0 fuel ⟨t.y, c1, d1, t.h, t.mi, t.s⟩ n1 dic1

/-- Scalar `MultiDate.add_days` with an integer increment (lines 2657-2772):
move across year boundaries (pre-block lines 2678-2706 and the year loop),
then across cycle boundaries (pre-block lines 2726-2745 and the cycle loop),
then index the final day value in the day table (lines 2765-2768, via
Python's list indexing).  The fractional branch (lines 2770-2772) is dead for
integer increments.  The `float('inf')` open-cycle branch of the scalar
`Date2.add_days` has no counterpart in `MultiDate.add_days`. -/
def addDays (cal : Calendar) (fuel : Nat) (t : TV) (n : Int) : Option TV := do
  let diy ← countDaysInYear cal t.y
  let p ← dayNumberInYear cal t
  let maxAdd := diy - p
  let maxSub := 1 - p
  let fo := maxAdd < n
  let fu := n < maxSub
  let fe := fo ∨ fu
  let y1 := t.y + (if fo then 1 else 0) - (if fu then 1 else 0)
  let c1 := if fe then 1 else t.c
  let fd ← firstDayInCycle cal 1 y1
  let d1 := if fe then fd else t.d
  let diy1 ← countDaysInYear cal y1
  let n1 := n - (if fo then maxAdd + 1 else 0) - (if fu then maxSub - diy1 else 0)
  let r1 ← addDaysYearLoop cal fu fuel ⟨y1, c1, d1, t.h, t.mi, t.s⟩ n1 diy1
  let t2 := r1.1
  let n2 := r1.2
  let dic ← countDaysInCycle cal t2.c t2.y
  let q ← dayNumberInCycle cal t2
  let maxAdd2 := dic - q
  let maxSub2 := 1 - q
  let fo2 := maxAdd2 < n2
  let fu2 := n2 < maxSub2
  let fe2 := fo2 ∨ fu2
  let c3 := t2.c + (if fo2 then 1 else 0) - (if fu2 then 1 else 0)
  let fd2 ← firstDayInCycle cal c3 t2.y
  let d3 := if fe2 then fd2 else t2.d
  let dic3 ← countDaysInCycle cal c3 t2.y
  let n3 := n2 - (if fo2 then maxAdd2 + 1 else 0) -
    (if fu2 then maxSub2 - dic3 else 0)
  let r2 ← addDaysCycleLoop cal fu2 fuel ⟨t2.y, c3, d3, t2.h, t2.mi, t2.s⟩ n3 dic3
  let t4 := r2.1
  let n4 := r2.2
  let q4 ← dayNumberInCycle cal t4
  let l4 ← cal.daysInCycle t4.c t4.y
  let dv ← pyIndex l4 (q4 + n4 - 1)
  pure ⟨t4.y, t4.c, dv, t4.h, t4.mi, t4.s⟩

/-- Year-crossing loop of `MultiDate.add_cycles` (lines 2635-2645, scalar
form): the remaining increment first absorbs the cycle count of the year
entered backward on the previous iteration, the body then moves the year and
reduces the increment, and the do-while breaks when neither flag is raised
(in which case the body was the identity). -/
def addCyclesLoop (cal : Calendar) :
    Nat → Int → Int → Bool → Option (Int × Int)
  | 0, _, _, _ => none
  | fuel + 1, y, n, fuPrev =>
    let ciy := cal.cyclesInYear y
    let n0 := n + (if fuPrev then ciy else 0)
    let fo := ciy ≤ n0
    let fu := n0 < 0
    let y1 := y + (if fo then 1 else 0) - (if fu then 1 else 0)
    let n1 := n0 - (if fo then ciy else 0)
    if ¬ (fo ∨ fu) then some (y1, n1)
    else addCyclesLoop cal fuel y1 n1 fu

/-- Scalar `MultiDate.add_cycles` with an integer increment
(lines 2600-2655): the pre-block (lines 2619-2633) moves to the first cycle
of the next year, or applies a small negative increment staying inside the
year, then the year loop distributes what remains and the final increment is
added to the cycle slot (line 2646).  The day slot is never touched, so the
resulting day value may be absent from the new cycle's day table.  The
fractional branch (lines 2648-2655) is dead for integer increments. -/
def addCycles (cal : Calendar) (fuel : Nat) (t : TV) (n : Int) : Option TV := do
  let ciy := cal.cyclesInYear t.y
  let maxAdd := ciy - t.c
  let maxSub := 1 - t.c
  let fo := maxAdd < n
  let fu := n < maxSub
  let fe := fo ∨ fu
  let y1 := t.y + (if fo then 1 else 0)
  let fneg := n < 0
  let warp1 := if fe then t.c - 1 else 0
  let warp2 := if fneg ∧ ¬ fu then n else 0
  let c1 := t.c - warp1 + warp2
  let n1 := n - (if fo then maxAdd + 1 else 0) - (if fu then maxSub else 0) - warp2
  let r ← addCyclesLoop cal fuel y1 n1 false
  pure ⟨r.1, c1 + r.2, t.d, t.h, t.mi, t.s⟩

/-- Scalar `MultiDate.add_years` with an integer increment (lines 2567-2598):
only the year slot moves; the fractional branch is dead for integers. -/
def addYears (t : TV) (n : Int) : TV :=
  ⟨t.y + n, t.c, t.d, t.h, t.mi, t.s⟩

/-- Scalar `MultiDate.add_hours` with an integer increment (lines 2774-2795):
on overflow or underflow the excess days go through `add_days` with the
floored quotient and the hour becomes the nonnegative remainder modulo 24 of
`increment + hour` (numpy `mod`, embedded as `Int.emod`). -/
def addHours (cal : Calendar) (fuel : Nat) (t : TV) (n : Int) : Option TV := do
  let fo := 24 - t.h ≤ n
  let fu := n < -t.h
  let ov := fo ∨ fu
  let t1 ← if ov then addDays cal fuel t (Int.ediv (n + t.h) 24) else pure t
  let h1 := t1.h + (if ov then -t1.h + Int.emod (n + t1.h) 24 else n)
  pure ⟨t1.y, t1.c, t1.d, h1, t1.mi, t1.s⟩

/-- Scalar `MultiDate.add_minutes` with an integer increment
(lines 2797-2818), the minute analogue of `addHours`. -/
def addMinutes (cal : Calendar) (fuel : Nat) (t : TV) (n : Int) : Option TV := do
  let fo := 60 - t.mi ≤ n
  let fu := n < -t.mi
  let ov := fo ∨ fu
  let t1 ← if ov then addHours cal fuel t (Int.ediv (n + t.mi) 60) else pure t
  let mi1 := t1.mi + (if ov then -t1.mi + Int.emod (n + t1.mi) 60 else n)
  pure ⟨t1.y, t1.c, t1.d, t1.h, mi1, t1.s⟩

/-- Scalar `MultiDate.add_seconds` with an integer increment
(lines 2820-2851): overflowing minutes go through `add_minutes`, the second
slot becomes the remainder, and the rounding thresholds of lines 2840-2844
(`new_seconds < 0.001`, `new_seconds > 60 - 0.001`) specialize on integers to
`new_seconds = 0` and `60 <= new_seconds`; the trailing `add_minutes` call of
line 2844 is kept (it adds 0 minutes when the over-threshold flag is down). -/
def addSeconds (cal : Calendar) (fuel : Nat) (t : TV) (n : Int) : Option TV := do
  let ns := t.s + n
  let fo := 60 ≤ ns
  let fu := ns < 0
  let ov := fo ∨ fu
  let t1 ← if ov then addMinutes cal fuel t (Int.ediv ns 60) else pure t
  let ns1 := if ov then Int.emod ns 60 else ns
  let thrU := ns1 ≤ 0
  let thrO := 60 ≤ ns1
  let ns2 := if thrU ∨ thrO then 0 else ns1
  let t2 ← addMinutes cal fuel t1 (if thrO then 1 else 0)
  pure ⟨t2.y, t2.c, t2.d, t2.h, t2.mi, ns2⟩

/-- Value computed by `MultiDate.__add__` (lines 2853-2861): the six `add_*`
components applied in the canonical order years, cycles, days, hours,
minutes, seconds. -/
def addDelta (cal : Calendar) (fuel : Nat) (t δ : TV) : Option TV := do
  let t1 := addYears t δ.y
  let t2 ← addCycles cal fuel t1 δ.c
  let t3 ← addDays cal fuel t2 δ.d
  let t4 ← addHours cal fuel t3 δ.h
  let t5 ← addMinutes cal fuel t4 δ.mi
  addSeconds cal fuel t5 δ.s

/-- `DeltaT.__mul__` with multiplier -1 (lines 1667-1669), as used by
`MultiDate.__sub__`. -/
def negTV (δ : TV) : TV := ⟨-δ.y, -δ.c, -δ.d, -δ.h, -δ.mi, -δ.s⟩

/-- Value computed by `MultiDate.__sub__` (lines 2863-2864):
`self + (multideltat * -1)`. -/
def subDelta (cal : Calendar) (fuel : Nat) (t δ : TV) : Option TV :=
  addDelta cal fuel t (negTV δ)

/-- Comparison chain of `MultiDate.__gt__` (lines 2374-2393, scalar form):
the `warp` accumulator built from the second slot up to the year slot.  The
mask plays no role: every slot of a constructed `MultiDate` is unmasked.
The calendars are not consulted for the result (a mismatch only emits a
`warnings.warn`); no code path raises. -/
def gtChain (a b : TV) : Bool :=
  let w := decide (b.s < a.s)
  let w := decide (a.mi = b.mi) && w
  let w := decide (b.mi < a.mi) || w
  let w := decide (a.h = b.h) && w
  let w := decide (b.h < a.h) || w
  let w := decide (a.d = b.d) && w
  let w := decide (b.d < a.d) || w
  let w := decide (a.c = b.c) && w
  let w := decide (b.c < a.c) || w
  let w := decide (a.y = b.y) && w
  decide (b.y < a.y) || w

/-- Comparison chain of `MultiDate.__lt__` (lines 2395-2414, scalar form). -/
def ltChain (a b : TV) : Bool :=
  let w := decide (a.s < b.s)
  let w := decide (a.mi = b.mi) && w
  let w := decide (a.mi < b.mi) || w
  let w := decide (a.h = b.h) && w
  let w := decide (a.h < b.h) || w
  let w := decide (a.d = b.d) && w
  let w := decide (a.d < b.d) || w
  let w := decide (a.c = b.c) && w
  let w := decide (a.c < b.c) || w
  let w := decide (a.y = b.y) && w
  decide (a.y < b.y) || w

/-- Comparison chain of `MultiDate.__ge__` (lines 2416-2435, scalar form):
seeded with `>=` on the second slot, `>` elsewhere. -/
def geChain (a b : TV) : Bool :=
  let w := decide (b.s ≤ a.s)
  let w := decide (a.mi = b.mi) && w
  let w := decide (b.mi < a.mi) || w
  let w := decide (a.h = b.h) && w
  let w := decide (b.h < a.h) || w
  let w := decide (a.d = b.d) && w
  let w := decide (b.d < a.d) || w
  let w := decide (a.c = b.c) && w
  let w := decide (b.c < a.c) || w
  let w := decide (a.y = b.y) && w
  decide (b.y < a.y) || w

/-- Comparison chain of `MultiDate.__le__` (lines 2437-2456, scalar form). -/
def leChain (a b : TV) : Bool :=
  let w := decide (a.s ≤ b.s)
  let w := decide (a.mi = b.mi) && w
  let w := decide (a.mi < b.mi) || w
  let w := decide (a.h = b.h) && w
  let w := decide (a.h < b.h) || w
  let w := decide (a.d = b.d) && w
  let w := decide (a.d < b.d) || w
  let w := decide (a.c = b.c) && w
  let w := decide (a.c < b.c) || w
  let w := decide (a.y = b.y) && w
  decide (a.y < b.y) || w

/-- Slots of a time vector as a list, coarsest first. -/
def TV.slots (t : TV) : List Int := [t.y, t.c, t.d, t.h, t.mi, t.s]

/-- Strict lexicographic greater-than on slot lists: the specification-side
notion of comparing lexicographically by slot. -/
def lexGtL : List Int → List Int → Bool
  | [], [] => false
  | x :: xs, y :: ys => decide (y < x) || (decide (x = y) && lexGtL xs ys)
  | _, _ => false

/-- Strict lexicographic less-than on slot lists (specification side). -/
def lexLtL : List Int → List Int → Bool
  | [], [] => false
  | x :: xs, y :: ys => decide (x < y) || (decide (x = y) && lexLtL xs ys)
  | _, _ => false

/-- Lexicographic greater-or-equal on slot lists (specification side). -/
def lexGeL : List Int → List Int → Bool
  | [], [] => true
  | x :: xs, y :: ys => decide (y < x) || (decide (x = y) && lexGeL xs ys)
  | _, _ => false

/-- Lexicographic less-or-equal on slot lists (specification side). -/
def lexLeL : List Int → List Int → Bool
  | [], [] => true
  | x :: xs, y :: ys => decide (x < y) || (decide (x = y) && lexLeL xs ys)
  | _, _ => false

/-- Date bound to a calendar: the data `Date.__gt__` and friends consult
(`self.times[0]` and `self.calendars[0]`). -/
structure DateC where
  vec : TV
  cal : Calendar

/-- Full effect of `MultiDate.__gt__` on two dates (lines 2374-2393): first
component records whether the cross-calendar `warnings.warn` of lines
2380-2382 fires (calendar equality is alias equality, `Calendar.__eq__`,
lines 564-568), second component is the boolean comparison result.  The
function is total: no calendar combination raises. -/
def dgt (a b : DateC) : Bool × Bool :=
  (decide (¬ a.cal.calAlias = b.cal.calAlias), gtChain a.vec b.vec)

/-- Full effect of `MultiDate.__lt__` on two dates (lines 2395-2414). -/
def dlt (a b : DateC) : Bool × Bool :=
  (decide (¬ a.cal.calAlias = b.cal.calAlias), ltChain a.vec b.vec)

/-- Full effect of `MultiDate.__ge__` on two dates (lines 2416-2435). -/
def dge (a b : DateC) : Bool × Bool :=
  (decide (¬ a.cal.calAlias = b.cal.calAlias), geChain a.vec b.vec)

/-- Full effect of `MultiDate.__le__` on two dates (lines 2437-2456). -/
def dle (a b : DateC) : Bool × Bool :=
  (decide (¬ a.cal.calAlias = b.cal.calAlias), leChain a.vec b.vec)

/-- Period data: the two endpoint rows, the boundary flags and the calendar
(`Period.__init__`, lines 3469-3495). -/
structure PeriodS where
  iv : TV
  fv : TV
  lo : Bool
  ro : Bool
  cal : Calendar

/-- `explicit_period` (lines 4079-4101) followed by the `Period.__init__`
validation (lines 3491-3495): the two dates must carry the same calendar
alias and the initial date must strictly precede the final date (the
check is `initial_date >= final_date`, through `MultiDate.__ge__`). -/
def mkExplicitPeriod (d1 d2 : DateC) (lo ro : Bool) : Except TErr PeriodS :=
  if ¬ d1.cal.calAlias = d2.cal.calAlias then .error .calendarMismatch
  else if geChain d1.vec d2.vec then .error .datesOrder
  else .ok ⟨d1.vec, d2.vec, lo, ro, d1.cal⟩

/-- Sampling loop of `Period.regular_sample` (lines 3639-3643): keep
appending `next_date` and stepping by `deltat` while `next_date <= final`,
breaking early when the period is right-open and `next_date` has reached the
final date.  `addFuel` bounds the internal loops of each addition, the outer
fuel bounds the number of samples; `none` means the loop (or an addition
inside it) did not finish. -/
def sampleLoop (cal : Calendar) (ro : Bool) (fv δ : TV) (addFuel : Nat) :
    Nat → TV → List TV → Option (List TV)
  | 0, _, _ => none
  | fuel + 1, nd, acc =>
    if leChain nd fv then
      if ro && decide (nd = fv) then some acc
      else
        match addDelta cal addFuel nd δ with
        | none => none
        | some nd2 => sampleLoop cal ro fv δ addFuel fuel nd2 (acc ++ [nd])
    else some acc

/-- `Period.regular_sample` without buffer and without calendar override
(lines 3600-3647): when the period is left-open the start is advanced by one
step (the `initial_date == self.initial_date()` guard is satisfied because no
buffer was applied); a start past the final bound returns Python `None`
(embedded as `some none`); otherwise the collected rows are returned.  The
outer `none` means some internal computation ran out of fuel.  No check
whatsoever is made on `deltat`. -/
def regularSample (p : PeriodS) (δ : TV) (addFuel loopFuel : Nat) :
    Option (Option (List TV)) :=
  let ini0 := p.iv
  match (if p.lo && decide (ini0 = p.iv) then addDelta p.cal addFuel ini0 δ
         else some ini0) with
  | none => none
  | some ini =>
    if (if p.ro then geChain ini p.fv else gtChain ini p.fv) then some none
    else
      match addDelta p.cal addFuel ini δ with
      | none => none
      | some nd => (sampleLoop p.cal p.ro p.fv δ addFuel loopFuel nd [ini]).map some

/-- Boolean-to-integer coercion of numpy flag arithmetic. -/
def b2i (b : Bool) : Int := if b then 1 else 0

/-- Scalar `MultiPeriod.count_days` (lines 3267-3329): whole-year day counts
over the year span, minus the days before the initial position in the
initial year, minus the days after the final position in the final year,
minus the open-boundary corrections when an endpoint sits exactly on a day
boundary. -/
def countDaysP (cal : Calendar) (lo ro : Bool) (t0 t1 : TV) : Option Int := do
  let flagLO := lo && (decide (t0.h = 23) && decide (t0.mi = 59) && decide (t0.s = 59))
  let flagRO := ro && (decide (t1.h = 0) && decide (t1.mi = 0) && decide (t1.s = 0))
  let q0 ← dayNumberInCycle cal t0
  let q1 ← dayNumberInCycle cal t1
  let total ← (intRange t0.y t1.y).foldlM (fun acc y => do
      let dy ← countDaysInYear cal y
      let acc1 := acc + dy
      let acc2 ← if y = t0.y then do
          let sub ← (intRange 1 t0.c).foldlM (fun sb cc => do
              if cc = t0.c then pure (sb + (q0 - 1))
              else do
                let dl ← countDaysInCycle cal cc y
                pure (sb + dl)) (0 : Int)
          pure (acc1 - sub)
        else pure acc1
      if y = t1.y then do
          let ciy := cal.cyclesInYear y
          let sub ← (intRange t1.c ciy).foldlM (fun sb cc => do
              let dl ← countDaysInCycle cal cc y
              if cc = t1.c then pure (sb + (dl - q1))
              else pure (sb + dl)) (0 : Int)
          pure (acc2 - sub)
      else pure acc2) (0 : Int)
  pure (total - b2i flagLO - b2i flagRO)

/-- Scalar `MultiPeriod.count_hours` (lines 3331-3354). -/
def countHoursP (cal : Calendar) (lo ro : Bool) (t0 t1 : TV) : Option Int := do
  let fLOh := lo && (decide (t0.mi = 59) && decide (t0.s = 59))
  let fLO := lo && (decide (t0.h = 23) && decide (t0.mi = 59) && decide (t0.s = 59))
  let fROh := ro && (decide (t1.mi = 0) && decide (t1.s = 0))
  let fRO := ro && (decide (t1.h = 0) && decide (t1.mi = 0) && decide (t1.s = 0))
  let cd ← countDaysP cal lo ro t0 t1
  pure (cd * 24 - (t0.h + b2i fLOh) * b2i (!fLO) - (23 - t1.h + b2i fROh) * b2i (!fRO))

/-- Scalar `MultiPeriod.count_minutes` (lines 3356-3373). -/
def countMinutesP (cal : Calendar) (lo ro : Bool) (t0 t1 : TV) : Option Int := do
  let fLOh := lo && (decide (t0.mi = 59) && decide (t0.s = 59))
  let fLO := lo && decide (t0.s = 59)
  let fROh := ro && (decide (t1.mi = 0) && decide (t1.s = 0))
  let fRO := ro && decide (t1.s = 0)
  let ch ← countHoursP cal lo ro t0 t1
  pure (ch * 60 - (t0.mi + b2i fLO) * b2i (!fLOh) - (59 - t1.mi + b2i fRO) * b2i (!fROh))

/-- Scalar `MultiPeriod.count_seconds` (lines 3375-3386). -/
def countSecondsP (cal : Calendar) (lo ro : Bool) (t0 t1 : TV) : Option Int := do
  let fLO := lo && decide (t0.s = 59)
  let fRO := ro && decide (t1.s = 0)
  let cm ← countMinutesP cal lo ro t0 t1
  pure (cm * 60 - (t0.s + b2i lo) * b2i (!fLO) - (59 - t1.s + b2i ro) * b2i (!fRO))

/-- `MultiPeriod.len` with units `'hours'` (lines 3393-3394): the source
divides `count_seconds()` by the float literal `360.0`; the division is
embedded over the rationals (the factor-of-ten discrepancy at stake in
claim C9 is far above any float rounding). -/
def lenHoursP (cal : Calendar) (lo ro : Bool) (t0 t1 : TV) : Option ℚ :=
  (countSecondsP cal lo ro t0 t1).map (fun sec => (sec : ℚ) / 360)

/-- Buffer contents after `MultiDate.__add__` (lines 2853-2861) on an
integer-valued date.  The source builds
`new_mdate = MultiDate(self.times, self.calendars)`; `_conversion_to_ma`
(lines 841-843) returns a masked-array argument untouched,
`MultiDate.__init__` re-wraps it as `ma.array(self.times, dtype=myint)`
(line 2278) whose default `copy=False` keeps the same data buffer, and the
mask-fill assignments are no-ops on an already-validated date.  The six
`add_*` calls then update that buffer in place, so after the call the
returned object and the operand both read the value returned here. -/
def pyAddShared (cal : Calendar) (fuel : Nat) (buf δ : TV) : Option TV :=
  addDelta cal fuel buf δ

/-- Evaluation of the Python expression `(d + deltat) - deltat == d` for an
integer-valued date `d`: both additions act on the one buffer shared by `d`
and the two results (see `pyAddShared`), and the final `==`
(`MultiDate.__eq__`, lines 2361-2366, via `_CollectionTime.__eq__`,
lines 1082-1088) compares the values and masks read from that buffer on both
sides together with the calendars, which are identical. -/
def pyRoundTripEq (cal : Calendar) (fuel : Nat) (d δ : TV) : Option Bool :=
  match pyAddShared cal fuel d δ with
  | none => none
  | some buf1 =>
    match pyAddShared cal fuel buf1 (negTV δ) with
    | none => none
    | some buf2 =>
      some (decide (buf2 = buf2) && decide (cal.calAlias = cal.calAlias))

/-- Example period of the specification scenario (claims C5, C6, C9):
`explicit_period(date([1979,1,1,0]), date([1979,1,1,6]))`, closed on both
sides. -/
def periodSix : PeriodS :=
  ⟨⟨1979, 1, 1, 0, 0, 0⟩, ⟨1979, 1, 1, 6, 0, 0⟩, false, false, CalGregorian⟩

/-- The same six-hour period with `right_open=True` (claim C5). -/
def periodSixRO : PeriodS :=
  ⟨⟨1979, 1, 1, 0, 0, 0⟩, ⟨1979, 1, 1, 6, 0, 0⟩, false, true, CalGregorian⟩

/-- Period covering the full non-leap year 1979 with `left_open=False`,
`right_open=True` (claim C5). -/
def periodYear79 : PeriodS :=
  ⟨⟨1979, 1, 1, 0, 0, 0⟩, ⟨1980, 1, 1, 0, 0, 0⟩, false, true, CalGregorian⟩

/-- The seven hourly rows 00:00 .. 06:00 of January 1, 1979 (claim C5). -/
def hourlyRows7 : List TV :=
  [⟨1979, 1, 1, 0, 0, 0⟩, ⟨1979, 1, 1, 1, 0, 0⟩, ⟨1979, 1, 1, 2, 0, 0⟩,
   ⟨1979, 1, 1, 3, 0, 0⟩, ⟨1979, 1, 1, 4, 0, 0⟩, ⟨1979, 1, 1, 5, 0, 0⟩,
   ⟨1979, 1, 1, 6, 0, 0⟩]

/-- The six hourly rows 00:00 .. 05:00 of January 1, 1979 (claim C5). -/
def hourlyRows6 : List TV :=
  [⟨1979, 1, 1, 0, 0, 0⟩, ⟨1979, 1, 1, 1, 0, 0⟩, ⟨1979, 1, 1, 2, 0, 0⟩,
   ⟨1979, 1, 1, 3, 0, 0⟩, ⟨1979, 1, 1, 4, 0, 0⟩, ⟨1979, 1, 1, 5, 0, 0⟩]

/-- Length of the 1..n day table. -/
theorem dayList_length (n : Nat) : (dayList n).length = n := by
  unfold dayList
  rw [List.length_map, List.length_range']

/-- Symmetry of decided equality on the integers. -/
theorem decide_eq_symm (a b : Int) : (decide (b = a)) = (decide (a = b)) := by
  by_cases h : a = b
  · simp [h]
  · have h2 : ¬ b = a := fun hba => h hba.symm
    simp [h, h2]

/-- Splitting a non-strict integer comparison into its strict and equal
parts, at the `Bool` level of the comparison chains. -/
theorem decide_le_split (a b : Int) :
    (decide (b ≤ a)) = (decide (b < a) || decide (a = b)) := by
  by_cases h : b < a
  · simp [h, le_of_lt h]
  · by_cases h2 : a = b
    · simp [h, h2]
    · simp [h, h2]
      omega

/-- The `__gt__` comparison chain is exactly strict lexicographic order on
the six slots, coarsest first. -/
theorem gtChain_eq_lex (a b : TV) :
    gtChain a b = lexGtL a.slots b.slots := by
  simp [gtChain, lexGtL, TV.slots]

/-- The `__lt__` comparison chain is exactly strict lexicographic order. -/
theorem ltChain_eq_lex (a b : TV) :
    ltChain a b = lexLtL a.slots b.slots := by
  simp [ltChain, lexLtL, TV.slots]

/-- The `__ge__` comparison chain is exactly lexicographic
greater-or-equal. -/
theorem geChain_eq_lex (a b : TV) :
    geChain a b = lexGeL a.slots b.slots := by
  simp [geChain, lexGeL, TV.slots, decide_le_split, decide_eq_symm]

/-- The `__le__` comparison chain is exactly lexicographic
less-or-equal. -/
theorem leChain_eq_lex (a b : TV) :
    leChain a b = lexLeL a.slots b.slots := by
  simp [leChain, lexLeL, TV.slots, decide_le_split, decide_eq_symm]

/-- After 1582 every month of the built-in Gregorian calendar uses the
proleptic Gregorian day table. -/
theorem greg_dic_pro (m y : Int) (h : 1582 < y) :
    CalGregorian.daysInCycle m y = days_in_month_proleptic_gregorian m y := by
  simp [CalGregorian, days_in_month_gregorian, h]

/-- Before 1582 every month of the built-in Gregorian calendar uses the
Julian day table. -/
theorem greg_dic_jul (m y : Int) (h : y < 1582) :
    CalGregorian.daysInCycle m y = days_in_month_julian m y := by
  have h1 : ¬ (1582 < y ∨ (y = 1582 ∧ 10 < m)) := by omega
  have h2 : ¬ (y = 1582 ∧ m = 10) := by omega
  simp [CalGregorian, days_in_month_gregorian, h1, h2]

/-- The twelve cycles the Gregorian day count iterates over. -/
theorem greg_cycle_range (y : Int) :
    intRange 1 (CalGregorian.cyclesInYear y) =
      [1, 2, 3, 4, 5, 6, 7, 8, 9, 10, 11, 12] := by
  rfl

/-- Day count of a 365-day month table year. -/
theorem countDays_of_365 (y : Int)
    (hdic : ∀ m, CalGregorian.daysInCycle m y = days_in_month_365 m y) :
    countDaysInYear CalGregorian y = some 365 := by
  unfold countDaysInYear
  rw [greg_cycle_range]
  norm_num [sumLens, hdic, days_in_month_365, dayList_length, table365]
  decide

/-- Day count of a 366-day month table year. -/
theorem countDays_of_366 (y : Int)
    (hdic : ∀ m, CalGregorian.daysInCycle m y = days_in_month_366 m y) :
    countDaysInYear CalGregorian y = some 366 := by
  unfold countDaysInYear
  rw [greg_cycle_range]
  norm_num [sumLens, hdic, days_in_month_366, dayList_length, table366]
  decide

/-- Years whose February table comes from `days_in_month_365` are reported
as non-leap. -/
theorem isLeap_of_dic365 (y : Int)
    (hdic : CalGregorian.daysInCycle 2 y = days_in_month_365 2 y) :
    isLeapCal CalGregorian y = some false := by
  have h : days_in_month_365 2 y = some (dayList 28) := by
    norm_num [days_in_month_365, table365]
    decide
  simp [isLeapCal, hdic, h]
  decide

/-- Years whose February table comes from `days_in_month_366` are reported
as leap. -/
theorem isLeap_of_dic366 (y : Int)
    (hdic : CalGregorian.daysInCycle 2 y = days_in_month_366 2 y) :
    isLeapCal CalGregorian y = some true := by
  have h : days_in_month_366 2 y = some (dayList 29) := by
    norm_num [days_in_month_366, table366]
    decide
  simp [isLeapCal, hdic, h]
  decide

/-- February of a post-1582 year follows the proleptic Gregorian rule. -/
theorem greg_feb_after (y : Int) (h : 1582 < y) :
    CalGregorian.daysInCycle 2 y =
      (if y % 100 = 0 ∧ ¬ y % 400 = 0 then days_in_month_365 2 y
       else if y % 4 = 0 then days_in_month_366 2 y
       else days_in_month_365 2 y) := by
  rw [greg_dic_pro 2 y h]
  unfold days_in_month_proleptic_gregorian days_in_month_julian
  by_cases hc : y % 100 = 0 ∧ ¬ y % 400 = 0 <;> by_cases h4 : y % 4 = 0 <;>
    simp [hc, h4]

/-- February of a pre-1582 year follows the Julian rule. -/
theorem greg_feb_before (y : Int) (h : y < 1582) :
    CalGregorian.daysInCycle 2 y =
      (if y % 4 = 0 then days_in_month_366 2 y else days_in_month_365 2 y) := by
  rw [greg_dic_jul 2 y h]
  unfold days_in_month_julian
  by_cases h4 : y % 4 = 0 <;> simp [h4]

/-- Day count of a post-1582 year of the built-in Gregorian calendar. -/
theorem countDays_greg_after (y : Int) (h : 1582 < y) :
    countDaysInYear CalGregorian y =
      some (if y % 100 = 0 ∧ ¬ y % 400 = 0 then 365
            else if y % 4 = 0 then 366 else 365) := by
  by_cases hc : y % 100 = 0 ∧ ¬ y % 400 = 0
  · rw [if_pos hc]
    exact countDays_of_365 y (fun m => by
      rw [greg_dic_pro m y h]
      simp [days_in_month_proleptic_gregorian, hc])
  · rw [if_neg hc]
    by_cases h4 : y % 4 = 0
    · rw [if_pos h4]
      exact countDays_of_366 y (fun m => by
        rw [greg_dic_pro m y h]
        unfold days_in_month_proleptic_gregorian days_in_month_julian
        rw [if_neg hc, if_pos h4])
    · rw [if_neg h4]
      exact countDays_of_365 y (fun m => by
        rw [greg_dic_pro m y h]
        unfold days_in_month_proleptic_gregorian days_in_month_julian
        rw [if_neg hc, if_neg h4])

/-- Day count of a pre-1582 year of the built-in Gregorian calendar. -/
theorem countDays_greg_before (y : Int) (h : y < 1582) :
    countDaysInYear CalGregorian y =
      some (if y % 4 = 0 then 366 else 365) := by
  by_cases h4 : y % 4 = 0
  · rw [if_pos h4]
    exact countDays_of_366 y (fun m => by
      rw [greg_dic_jul m y h]
      simp [days_in_month_julian, h4])
  · rw [if_neg h4]
    exact countDays_of_365 y (fun m => by
      rw [greg_dic_jul m y h]
      simp [days_in_month_julian, h4])

/-- Claim C3, counterexample: the claim fails as stated.  The built-in
`gregorian` calendar reports 1500 as a leap year although the standard rule
(divisible by 4, not by 100 unless by 400) classifies it as common, and its
day count for the transition year 1582 is 355, outside the claimed
set 365 or 366. -/
theorem c3_counterexample :
    isLeapCal CalGregorian 1500 = some true ∧
    decide (stdGregorianLeap 1500) = false ∧
    countDaysInYear CalGregorian 1582 = some 355 ∧
    decide (countDaysInYear CalGregorian 1582 = some 365 ∨
       countDaysInYear CalGregorian 1582 = some 366) = false := by
  decide

/-- Claim C3, amended: the built-in Gregorian `is_leap` agrees with the
standard Gregorian rule for years after 1582 and with the Julian rule
(divisible by 4) for years up to and including 1582, and
`count_days_in_year` is 365 or 366 for every year other than 1582, the
transition year, whose count is 355. -/
theorem c3_amended (y : Int) :
    (1582 < y → (isLeapCal CalGregorian y = some true ↔ stdGregorianLeap y)) ∧
    (y ≤ 1582 → (isLeapCal CalGregorian y = some true ↔ y % 4 = 0)) ∧
    (¬ y = 1582 → countDaysInYear CalGregorian y = some 365 ∨
      countDaysInYear CalGregorian y = some 366) ∧
    countDaysInYear CalGregorian 1582 = some 355 := by
  refine ⟨?_, ?_, ?_, by decide⟩
  · intro h
    have hfeb := greg_feb_after y h
    by_cases hc : y % 100 = 0 ∧ ¬ y % 400 = 0
    · rw [if_pos hc] at hfeb
      rw [isLeap_of_dic365 y hfeb]
      simp [stdGregorianLeap]
      omega
    · rw [if_neg hc] at hfeb
      by_cases h4 : y % 4 = 0
      · rw [if_pos h4] at hfeb
        rw [isLeap_of_dic366 y hfeb]
        simp [stdGregorianLeap]
        omega
      · rw [if_neg h4] at hfeb
        rw [isLeap_of_dic365 y hfeb]
        simp [stdGregorianLeap]
        omega
  · intro h
    by_cases he : y = 1582
    · subst he
      simp [show isLeapCal CalGregorian 1582 = some false from by decide]
    · have hlt : y < 1582 := by omega
      have hfeb := greg_feb_before y hlt
      by_cases h4 : y % 4 = 0
      · rw [if_pos h4] at hfeb
        rw [isLeap_of_dic366 y hfeb]
        simp [h4]
      · rw [if_neg h4] at hfeb
        rw [isLeap_of_dic365 y hfeb]
        simp [h4]
  · intro hne
    rcases lt_or_gt_of_ne hne with hlt | hgt
    · rw [countDays_greg_before y hlt]
      by_cases h4 : y % 4 = 0
      · rw [if_pos h4]
        right
        rfl
      · rw [if_neg h4]
        left
        rfl
    · rw [countDays_greg_after y hgt]
      by_cases hc : y % 100 = 0 ∧ ¬ y % 400 = 0
      · rw [if_pos hc]
        left
        rfl
      · rw [if_neg hc]
        by_cases h4 : y % 4 = 0
        · rw [if_pos h4]
          right
          rfl
        · rw [if_neg h4]
          left
          rfl

/-- Witness for the amended claim C3: the amended statement instantiated at
the concrete years 2000 (leap by the standard rule), 1500 (Julian leap) and
2001 (day count in the claimed set). -/
theorem c3_amended_witness :
    isLeapCal CalGregorian 2000 = some true ∧
    isLeapCal CalGregorian 1500 = some true ∧
    (countDaysInYear CalGregorian 2001 = some 365 ∨
      countDaysInYear CalGregorian 2001 = some 366) :=
  ⟨((c3_amended 2000).1 (by decide)).mpr (by decide),
   ((c3_amended 1500).2.1 (by decide)).mpr (by decide),
   (c3_amended 2001).2.2.1 (by decide)⟩

/-- Claim C2, confirmed: `days_in_cycle(10, 1582)` of the built-in Gregorian
calendar is exactly the day values 1,2,3,4,15,...,31 (October 5 through 14
of 1582 are absent), and `Date([1582,10,4]) + one_day` lands on
`Date([1582,10,15])`. -/
theorem c2_gregorian_transition :
    CalGregorian.daysInCycle 10 1582 =
      some [1, 2, 3, 4, 15, 16, 17, 18, 19, 20, 21, 22, 23, 24, 25, 26, 27,
            28, 29, 30, 31] ∧
    dateOf CalGregorian [1582, 10, 4] = some ⟨1582, 10, 4, 0, 0, 0⟩ ∧
    addDelta CalGregorian 60 ⟨1582, 10, 4, 0, 0, 0⟩ one_day =
      some ⟨1582, 10, 15, 0, 0, 0⟩ ∧
    dateOf CalGregorian [1582, 10, 15] = some ⟨1582, 10, 15, 0, 0, 0⟩ := by
  decide

/-- Claim C1, counterexample: the claim fails as stated.  For the valid
Gregorian date d = Date([2020,1,27]) and the duration
DeltaT([0,1,5]) (one cycle and five days), adding and then subtracting in
the canonical years, cycles, days, hours, minutes, seconds order lands on
[2020,1,29], not back on d: `d + delta` reaches [2020,3,3] (through February
of the leap year 2020) and subtracting retraces through January, two days
off the start. -/
theorem c1_counterexample :
    dateOf CalGregorian [2020, 1, 27] = some ⟨2020, 1, 27, 0, 0, 0⟩ ∧
    addDelta CalGregorian 60 ⟨2020, 1, 27, 0, 0, 0⟩ ⟨0, 1, 5, 0, 0, 0⟩ =
      some ⟨2020, 3, 3, 0, 0, 0⟩ ∧
    subDelta CalGregorian 60 ⟨2020, 3, 3, 0, 0, 0⟩ ⟨0, 1, 5, 0, 0, 0⟩ =
      some ⟨2020, 1, 29, 0, 0, 0⟩ ∧
    decide ((⟨2020, 1, 29, 0, 0, 0⟩ : TV) = ⟨2020, 1, 27, 0, 0, 0⟩) = false := by
  decide

/-- Claim C1, amended: whenever the arithmetic of `(d + delta) - delta == d`
completes, the Python expression evaluates to True, but only because
`MultiDate.__add__` builds its result on the operand's own time buffer (see
`pyAddShared`), so the final `==` compares the round-tripped vector against
the mutated operand rather than against the original value of `d`; the
round-tripped value itself can differ from the original
(`c1_counterexample`). -/
theorem c1_amended (cal : Calendar) (fuel : Nat) (d δ : TV) :
    pyRoundTripEq cal fuel d δ = none ∨
    pyRoundTripEq cal fuel d δ = some true := by
  unfold pyRoundTripEq
  split
  · exact Or.inl rfl
  split
  · exact Or.inl rfl
  right
  simp

/-- Claim C4: `d + delta` returns a fresh `MultiDate` object, but that
object's `times` is the operand's own buffer (`_conversion_to_ma` returns a
masked-array argument untouched), so the addition mutates `d` in place: for
d = Date([2001,1,1]) and delta = DeltaT([1]) the shared buffer ends up
holding [2002,1,1,0,0,0], which differs from d's original slots.  The masks
are untouched (all unmasked), so the divergence is in the year slot. -/
theorem c4_add_mutates_operand :
    dateOf CalGregorian [2001, 1, 1] = some ⟨2001, 1, 1, 0, 0, 0⟩ ∧
    pyAddShared CalGregorian 60 ⟨2001, 1, 1, 0, 0, 0⟩ one_year =
      some ⟨2002, 1, 1, 0, 0, 0⟩ ∧
    decide ((⟨2002, 1, 1, 0, 0, 0⟩ : TV) = ⟨2001, 1, 1, 0, 0, 0⟩) = false := by
  decide

/-- Claim C7, counterexample: the claim fails as stated.  Comparing the
dates built from [2001] and [2001,6] — equal where both inputs were set,
different resolutions — raises nothing: all four order operators return
booleans (construction fills the unset slots of [2001] with defaults, so the
comparison sees cycle 1 against cycle 6). -/
theorem c7_counterexample :
    dateOf CalGregorian [2001] = some ⟨2001, 1, 1, 0, 0, 0⟩ ∧
    dateOf CalGregorian [2001, 6] = some ⟨2001, 6, 1, 0, 0, 0⟩ ∧
    gtChain ⟨2001, 1, 1, 0, 0, 0⟩ ⟨2001, 6, 1, 0, 0, 0⟩ = false ∧
    ltChain ⟨2001, 1, 1, 0, 0, 0⟩ ⟨2001, 6, 1, 0, 0, 0⟩ = true ∧
    geChain ⟨2001, 1, 1, 0, 0, 0⟩ ⟨2001, 6, 1, 0, 0, 0⟩ = false ∧
    leChain ⟨2001, 1, 1, 0, 0, 0⟩ ⟨2001, 6, 1, 0, 0, 0⟩ = true := by
  decide

/-- Claim C7, amended: the `Date`/`MultiDate` order operators never raise an
ambiguity error; construction fills every slot, and each operator returns
exactly the lexicographic slot-wise comparison of the six filled slots
(so dates built from [2001] and [2001,6] compare as [2001,1,1,0,0,0] against
[2001,6,1,0,0,0], and [2001,1,1] < [2001,6,1] is True).  The
`Ambiguous operations` raise survives only in the unused `Date2` methods and
the `__gt_obsolete_` family. -/
theorem c7_amended :
    (∀ a b : TV,
      gtChain a b = lexGtL a.slots b.slots ∧
      ltChain a b = lexLtL a.slots b.slots ∧
      geChain a b = lexGeL a.slots b.slots ∧
      leChain a b = lexLeL a.slots b.slots) ∧
    ltChain ⟨2001, 1, 1, 0, 0, 0⟩ ⟨2001, 6, 1, 0, 0, 0⟩ = true :=
  ⟨fun a b =>
    ⟨gtChain_eq_lex a b, ltChain_eq_lex a b, geChain_eq_lex a b,
     leChain_eq_lex a b⟩,
   by decide⟩

/-- Claim C8, counterexample: the claim fails as stated.  Comparing two
equal-slot dates bound to the `gregorian` and `360_day` calendars fails with
nothing: every order operator returns a boolean (here `>` and `<` give
False, `>=` and `<=` give True) while merely emitting the cross-calendar
`warnings.warn` (first component `true`). -/
theorem c8_counterexample :
    dgt ⟨⟨2001, 1, 1, 0, 0, 0⟩, CalGregorian⟩ ⟨⟨2001, 1, 1, 0, 0, 0⟩, Cal360⟩ =
      (true, false) ∧
    dlt ⟨⟨2001, 1, 1, 0, 0, 0⟩, CalGregorian⟩ ⟨⟨2001, 1, 1, 0, 0, 0⟩, Cal360⟩ =
      (true, false) ∧
    dge ⟨⟨2001, 1, 1, 0, 0, 0⟩, CalGregorian⟩ ⟨⟨2001, 1, 1, 0, 0, 0⟩, Cal360⟩ =
      (true, true) ∧
    dle ⟨⟨2001, 1, 1, 0, 0, 0⟩, CalGregorian⟩ ⟨⟨2001, 1, 1, 0, 0, 0⟩, Cal360⟩ =
      (true, true) := by
  decide

/-- Claim C8, amended: order comparisons between dates bound to calendars
with different aliases do not fail; they return the slot-wise lexicographic
boolean result computed from the time vectors alone, and the only effect of
the alias mismatch is the `warnings.warn` recorded in the first
component. -/
theorem c8_amended (a b : DateC) :
    (dgt a b).2 = lexGtL a.vec.slots b.vec.slots ∧
    (dlt a b).2 = lexLtL a.vec.slots b.vec.slots ∧
    (dge a b).2 = lexGeL a.vec.slots b.vec.slots ∧
    (dle a b).2 = lexLeL a.vec.slots b.vec.slots :=
  ⟨gtChain_eq_lex a.vec b.vec, ltChain_eq_lex a.vec b.vec,
   geChain_eq_lex a.vec b.vec, leChain_eq_lex a.vec b.vec⟩

/-- Claim C9: the claim is right and the code is wrong.  For the closed
six-hour period from [1979,1,1,0] to [1979,1,1,6], `count_seconds()` is
21601, and `len('hours')` divides it by the literal `360.0`
(`MultiPeriod.len`, line 3394) instead of 3600, returning about 60 where the
claimed reduction `count_seconds()/3600` gives about 6; every sibling unit
in the same method uses the correct factor (60 for minutes, 86400 for
days). -/
theorem c9_len_hours_bug :
    countSecondsP CalGregorian false false ⟨1979, 1, 1, 0, 0, 0⟩
      ⟨1979, 1, 1, 6, 0, 0⟩ = some 21601 ∧
    lenHoursP CalGregorian false false ⟨1979, 1, 1, 0, 0, 0⟩
      ⟨1979, 1, 1, 6, 0, 0⟩ = some ((21601 : ℚ) / 360) ∧
    decide ((21601 : ℚ) / 360 = (21601 : ℚ) / 3600) = false ∧
    decide ((21601 : ℚ) / 360 = 6) = false := by
  have hsec : countSecondsP CalGregorian false false ⟨1979, 1, 1, 0, 0, 0⟩
      ⟨1979, 1, 1, 6, 0, 0⟩ = some 21601 := by decide
  refine ⟨hsec, ?_, decide_eq_false (by norm_num), decide_eq_false (by norm_num)⟩
  unfold lenHoursP
  rw [hsec]
  norm_num

/-- Claim C10, counterexample: the claim fails as stated.  The empty input
`[]` is accepted by the `MultiDate`/`Date` constructor (every slot arrives
masked, which trips none of the validity checks), and the constructed object
keeps its year slot masked: the result mask is not all-unmasked. -/
theorem c10_counterexample :
    mkMultiDate CalGregorian [] =
      .ok (⟨0, 1, 1, 0, 0, 0⟩, ⟨true, false, false, false, false, false⟩) ∧
    decide ((⟨true, false, false, false, false, false⟩ : Mask) = Mask.allFalse) =
      false := by
  exact ⟨rfl, by decide⟩

/-- Claim C10, amended: every accepted input whose first (year) slot is set
yields a date with all six slots unmasked — unset trailing slots are filled
in place with their defaults (cycle 1, first day of the cycle, hour, minute
and second 0) and their mask bits cleared — so `Date([2001])` is
indistinguishable in data and mask from `Date([2001,1,1,0,0,0])`; but an
input with no set slot at all (such as `[]`) is also accepted and keeps its
year slot masked. -/
theorem c10_amended :
    (∀ (cal : Calendar) (inp : List (Option Int)) (tv : TV) (m : Mask),
      mkMultiDate cal inp = .ok (tv, m) → slotM inp 0 = false →
      m = Mask.allFalse) ∧
    mkMultiDate CalGregorian [some 2001] =
      mkMultiDate CalGregorian
        [some 2001, some 1, some 1, some 0, some 0, some 0] := by
  constructor
  · intro cal inp tv m hok hm
    unfold mkMultiDate at hok
    cases h : mkDateSlots cal inp with
    | error e =>
      rw [h] at hok
      exact Except.noConfusion hok
    | ok v =>
      rw [h] at hok
      simp only [Except.ok.injEq, Prod.mk.injEq] at hok
      rw [← hok.2, hm]
      rfl
  · rfl

set_option maxRecDepth 100000 in
set_option maxHeartbeats 4000000 in
/-- Claim C5, confirmed: the closed six-hour period of the specification
scenario samples to exactly the seven hourly timestamps 00:00 through 06:00,
the right-open variant to the six timestamps 00:00 through 05:00, and the
left-closed right-open period over the full non-leap year 1979 sampled at
one day gives exactly 365 dates. -/
theorem c5_regular_sample :
    dateOf CalGregorian [1979, 1, 1, 0] = some ⟨1979, 1, 1, 0, 0, 0⟩ ∧
    dateOf CalGregorian [1979, 1, 1, 6] = some ⟨1979, 1, 1, 6, 0, 0⟩ ∧
    mkExplicitPeriod ⟨⟨1979, 1, 1, 0, 0, 0⟩, CalGregorian⟩
      ⟨⟨1979, 1, 1, 6, 0, 0⟩, CalGregorian⟩ false false = .ok periodSix ∧
    regularSample periodSix one_hour 60 20 = some (some hourlyRows7) ∧
    hourlyRows7.length = 7 ∧
    mkExplicitPeriod ⟨⟨1979, 1, 1, 0, 0, 0⟩, CalGregorian⟩
      ⟨⟨1979, 1, 1, 6, 0, 0⟩, CalGregorian⟩ false true = .ok periodSixRO ∧
    regularSample periodSixRO one_hour 60 20 = some (some hourlyRows6) ∧
    hourlyRows6.length = 6 ∧
    mkExplicitPeriod ⟨⟨1979, 1, 1, 0, 0, 0⟩, CalGregorian⟩
      ⟨⟨1980, 1, 1, 0, 0, 0⟩, CalGregorian⟩ false true = .ok periodYear79 ∧
    (regularSample periodYear79 one_day 60 400).map (Option.map List.length) =
      some (some 365) := by
  refine ⟨by decide, by decide, rfl, by decide, by decide, rfl, by decide,
    by decide, rfl, by decide⟩

/-- Auxiliary for claim C6: once the sampling loop of `regular_sample` holds
the initial date and a zero-length step, every iteration recomputes the same
date (`d + DeltaT([0]) = d`) while the loop guard `next_date <= final_date`
stays true, so no amount of fuel makes the loop terminate. -/
theorem sampleLoop_zero_step_stuck :
    ∀ (fuel : Nat) (acc : List TV),
      sampleLoop CalGregorian false ⟨1979, 1, 1, 6, 0, 0⟩ zero_deltat 60 fuel
        ⟨1979, 1, 1, 0, 0, 0⟩ acc = none := by
  intro fuel
  induction fuel with
  | zero => intro acc; rfl
  | succ n ih =>
    intro acc
    have h1 : leChain ⟨1979, 1, 1, 0, 0, 0⟩ ⟨1979, 1, 1, 6, 0, 0⟩ = true := by
      decide
    have h2 : addDelta CalGregorian 60 (⟨1979, 1, 1, 0, 0, 0⟩ : TV) zero_deltat
        = some ⟨1979, 1, 1, 0, 0, 0⟩ := by decide
    simp [sampleLoop, h1, h2]
    exact ih _

/-- Claim C6: the claim is right and the code is wrong.  `regular_sample`
performs no check at all on the step: with `step = DeltaT([0])` on the valid
closed period from [1979,1,1,0] to [1979,1,1,6], the source enters
`while next_date <= final_date` with `next_date = initial_date + 0` and
never progresses — the embedded sampler returns the out-of-fuel marker for
every fuel bound instead of raising any error at entry. -/
theorem c6_zero_step_never_terminates (loopFuel : Nat) :
    mkExplicitPeriod ⟨⟨1979, 1, 1, 0, 0, 0⟩, CalGregorian⟩
      ⟨⟨1979, 1, 1, 6, 0, 0⟩, CalGregorian⟩ false false = .ok periodSix ∧
    regularSample periodSix zero_deltat 60 loopFuel = none := by
  refine ⟨rfl, ?_⟩
  have h2 : addDelta CalGregorian 60 (⟨1979, 1, 1, 0, 0, 0⟩ : TV) zero_deltat
      = some ⟨1979, 1, 1, 0, 0, 0⟩ := by decide
  have h3 : gtChain (⟨1979, 1, 1, 0, 0, 0⟩ : TV) ⟨1979, 1, 1, 6, 0, 0⟩ = false := by
    decide
  simp [regularSample, periodSix, h2, h3, sampleLoop_zero_step_stuck]

/-- Witness for the amended claim C10: the date built from [2001] is
accepted with an all-unmasked result. -/
theorem c10_amended_witness :
    mkMultiDate CalGregorian [some 2001] =
      .ok (⟨2001, 1, 1, 0, 0, 0⟩, ⟨false, false, false, false, false, false⟩) ∧
    (⟨false, false, false, false, false, false⟩ : Mask) = Mask.allFalse :=
  ⟨rfl,
   c10_amended.1 CalGregorian [some 2001] ⟨2001, 1, 1, 0, 0, 0⟩
     ⟨false, false, false, false, false, false⟩ rfl rfl⟩

end Timely
